import Mathlib

/-!
Verification of the `SearchDropdown` component
(`src/client/src/components/ui/SearchDropdown.tsx`).

The component is a single React function component.  We shallowly embed its
state (the four `useState` hooks), its three effects (escape handling is pure
UI plumbing and not modelled; the open/close effect and the debounced-search
effect are modelled), the asynchronous timer callback (the fetch cycle), the
click handler, and the result-area rendering, as pure Lean functions, and a
small timed event semantics for the debounce timer.
-/

namespace SearchDropdown

/-- A category search result row, as consumed by the component
(`cat._id`, `cat.name`, `cat.slug`). -/
structure CategorySummary where
  _id : String
  name : String
  slug : String
  deriving Repr, DecidableEq

/-- A product search result row, as consumed by the component
(`prod._id`, `prod.name`, `prod.slug`, `prod.brand`). -/
structure ProductSummary where
  _id : String
  name : String
  slug : String
  brand : String
  deriving Repr, DecidableEq

/-- The `results` state: `{ categories: any[]; products: any[] }`. -/
structure ResultSet where
  categories : List CategorySummary
  products : List ProductSummary
  deriving Repr, DecidableEq

/-- `{ categories: [], products: [] }`, the initial and reset value. -/
def emptyResults : ResultSet := { categories := [], products := [] }

/-- The component's `useState` hooks: `query`, `loading`, `results`, `error`. -/
structure ComponentState where
  query : String
  loading : Bool
  results : ResultSet
  error : String
  deriving Repr, DecidableEq

/-- The `useState` initializers: `useState('')`, `useState(false)`,
`useState({categories: [], products: []})`, `useState('')`. -/
def initialState : ComponentState :=
  { query := "", loading := false, results := emptyResults, error := "" }

/-- The debounce delay passed to `setTimeout`. -/
def DELAY : Nat := 350

/-- JavaScript `String.prototype.trim`: drop whitespace from both ends.
(Executable model; `String.trim` of the Lean core library is defined through
`Substring` auxiliaries that the kernel cannot evaluate.) -/
def jsTrim (s : String) : String :=
  String.mk (((s.data.dropWhile Char.isWhitespace).reverse.dropWhile
    Char.isWhitespace).reverse)

/-- Dispatcher state: the component state together with the pending
`setTimeout` timers.  Each pending timer carries its fire time and the
`query` value captured by the timer callback's closure.  The source keeps a
single handle in `debounceTimeout.current`; we model the pending set as a
list so that "at most one pending timer" is a provable property rather than
a typing assumption. -/
structure DispState where
  comp : ComponentState
  timers : List (Nat × String)
  deriving Repr, DecidableEq

/-- The initial dispatcher state: fresh component, no pending timer. -/
def initialDisp : DispState := { comp := initialState, timers := [] }

/-- `clearTimeout(debounceTimeout.current)`: the ref always holds the most
recently scheduled timer, so clearing it removes the last pending entry
(a no-op when nothing is pending, as `clearTimeout` is on a stale handle). -/
def clearCurrent (ts : List (Nat × String)) : List (Nat × String) :=
  ts.dropLast

/-- One run of the debounced-search effect, triggered at time `t` by mutating
`query` to `q`.  First the previous effect's cleanup runs
(`clearTimeout(debounceTimeout.current)`); then the body:
if `!query.trim()`, clear `results` and `error` and return without
scheduling; otherwise `setLoading(true)`, `setError('')`, clear the current
timer again, and schedule the callback `DELAY` units later, capturing `q`. -/
def applyMutation (t : Nat) (q : String) (d : DispState) : DispState :=
  let comp := { d.comp with query := q }
  let ts := clearCurrent d.timers
  if jsTrim q = "" then
    { comp := { comp with results := emptyResults, error := "" }, timers := ts }
  else
    { comp := { comp with loading := true, error := "" },
      timers := clearCurrent ts ++ [(t + DELAY, q)] }

/-- At time `t`, fire every pending timer whose fire time has arrived:
returns the remaining dispatcher state and the fired (fireTime, query)
pairs, i.e. the fetch cycles issued. -/
def fireDue (t : Nat) (d : DispState) : DispState × List (Nat × String) :=
  ({ d with timers := d.timers.filter (fun p => decide (t < p.1)) },
   d.timers.filter (fun p => decide (p.1 ≤ t)))

/-- Run a time-ordered list of query mutations through the dispatcher.
Before each mutation any timer that became due fires (single-threaded event
loop); the mutation then re-runs the search effect.  Returns the final
dispatcher state and the list of issued fetch cycles, each as
(fireTime, captured query). -/
def runEvents : DispState → List (Nat × String) → DispState × List (Nat × String)
  | d, [] => (d, [])
  | d, (t, q) :: rest =>
    let f := fireDue t d
    let d2 := applyMutation t q f.1
    let r := runEvents d2 rest
    (r.1, f.2 ++ r.2)

/-- Letting time pass with no further mutation (a pause of at least `DELAY`):
every pending timer fires. -/
def flush (d : DispState) : DispState × List (Nat × String) :=
  ({ d with timers := [] }, d.timers)

/-- Bool guard: every mutation in the list has a non-empty trimmed query. -/
def allNonEmptyTrim (es : List (Nat × String)) : Bool :=
  es.all (fun p => decide (jsTrim p.2 ≠ ""))

/-- Bool guard: starting from a mutation at time `tp`, each subsequent
mutation happens no earlier, and strictly within `DELAY` of the previous
one (rapid typing). -/
def chainFrom : Nat → List (Nat × String) → Bool
  | _, [] => true
  | tp, (t, _) :: rest => (decide (tp ≤ t) && decide (t < tp + DELAY)) && chainFrom t rest

/-- Time of the last mutation in the list (default `tp`). -/
def lastTime (tp : Nat) : List (Nat × String) → Nat
  | [] => tp
  | (t, _) :: rest => lastTime t rest

/-- Query of the last mutation in the list (default `qp`). -/
def lastQuery (qp : String) : List (Nat × String) → String
  | [] => qp
  | (_, q) :: rest => lastQuery q rest

/-! ### The fetch cycle (the `setTimeout` callback) -/

/-- UTF-8 bytes of a code point, as natural numbers. -/
def utf8Bytes (n : Nat) : List Nat :=
  if n < 0x80 then [n]
  else if n < 0x800 then [0xC0 + n / 64, 0x80 + n % 64]
  else if n < 0x10000 then [0xE0 + n / 4096, 0x80 + n / 64 % 64, 0x80 + n % 64]
  else [0xF0 + n / 262144, 0x80 + n / 4096 % 64, 0x80 + n / 64 % 64, 0x80 + n % 64]

/-- Uppercase hexadecimal digit. -/
def hexDigit (n : Nat) : Char :=
  if n < 10 then Char.ofNat (48 + n) else Char.ofNat (55 + n)

/-- `%XX` percent-encoding of one byte. -/
def percentEncodeByte (b : Nat) : String :=
  String.mk ['%', hexDigit (b / 16 % 16), hexDigit (b % 16)]

/-- Characters `encodeURIComponent` leaves unescaped:
`A-Z a-z 0-9 - _ . ! ~ * ' ( )`. -/
def uriUnreserved (c : Char) : Bool :=
  c.isAlpha || c.isDigit ||
    (c == '-' || c == '_' || c == '.' || c == '!' ||
     c == '~' || c == '*' || c == '\x27' || c == '(' || c == ')')

/-- JavaScript `encodeURIComponent`: unreserved characters pass through,
every other character is replaced by the percent-encoding of its UTF-8
bytes. -/
def encodeURIComponent (s : String) : String :=
  String.join (s.data.map (fun c =>
    if uriUnreserved c then String.singleton c
    else String.join ((utf8Bytes c.toNat).map percentEncodeByte)))

/-- The two `Axios.get` URLs issued by one fetch cycle, in `Promise.all`
order: `/api/category/search?q=${encodeURIComponent(query)}` and
`/api/product/search?q=${encodeURIComponent(query)}&limit=10`. -/
def fetchCycleRequests (q : String) : List String :=
  ["/api/category/search?q=" ++ encodeURIComponent q,
   "/api/product/search?q=" ++ encodeURIComponent q ++ "&limit=10"]

/-- Body of the category-search response: `{ data: CategorySummary[] }`;
the `data` field may be absent (`catRes.data.data || []`). -/
structure CatResponse where
  data : Option (List CategorySummary)
  deriving Repr, DecidableEq

/-- Inner object of the product-search response body. -/
structure ProdResponseData where
  products : List ProductSummary
  deriving Repr, DecidableEq

/-- Body of the product-search response:
`{ data: { products: ProductSummary[] } }`; the `data` field may be absent
(`prodRes.data.data?.products || []`). -/
structure ProdResponse where
  data : Option ProdResponseData
  deriving Repr, DecidableEq

/-- `catRes.data.data || []`. -/
def parseCategories (r : CatResponse) : List CategorySummary :=
  r.data.getD []

/-- `prodRes.data.data?.products || []`. -/
def parseProducts (r : ProdResponse) : List ProductSummary :=
  (r.data.map ProdResponseData.products).getD []

/-- Outcome of one awaited lookup: a response body, or a rejection. -/
inductive LookupResult (α : Type) where
  | ok (val : α)
  | err
  deriving Repr, DecidableEq

/-- Joint outcome of one fetch cycle, after `Promise.all`. -/
inductive FetchOutcome where
  | success (cats : List CategorySummary) (prods : List ProductSummary)
  | failure
  deriving Repr, DecidableEq

/-- `Promise.all([...])`: resolves with both values when both lookups
resolve, rejects if either rejects. -/
def joinLookups (c : LookupResult CatResponse) (p : LookupResult ProdResponse) :
    FetchOutcome :=
  match c, p with
  | .ok cr, .ok pr => .success (parseCategories cr) (parseProducts pr)
  | _, _ => .failure

/-- The `try`/`catch`/`finally` of the timer callback, applied when the
joined lookups settle: on success `setResults({...})`, on failure
`setError('Search failed.')`, and in either case `setLoading(false)` in the
`finally` block. -/
def completeFetch (s : ComponentState) (o : FetchOutcome) : ComponentState :=
  let s1 := match o with
    | .success cats prods =>
        { s with results := { categories := cats, products := prods } }
    | .failure => { s with error := "Search failed." }
  { s1 with loading := false }

/-- Apply a sequence of fetch-cycle completions in arrival order.  The
callback applies each completion unconditionally — there is no sequence
tagging, so nothing relates arrival order to issue order. -/
def applyCompletions (s : ComponentState) (os : List FetchOutcome) : ComponentState :=
  os.foldl completeFetch s

/-! ### Click handler, close effect, rendering -/

/-- Externally visible actions of the click handler. -/
inductive UIEvent where
  | close
  | navigate (path : String)
  deriving Repr, DecidableEq

/-- The `type` discriminator of `handleResultClick`. -/
inductive ResultType where
  | category
  | product
  deriving Repr, DecidableEq

/-- `handleResultClick(type, slug)`: calls `onClose()`, then unconditionally
navigates to `/category/${slug}` or `/product/${slug}`. -/
def handleResultClick (type : ResultType) (slug : String) : List UIEvent :=
  [UIEvent.close] ++
    match type with
    | .category => [UIEvent.navigate ("/category/" ++ slug)]
    | .product => [UIEvent.navigate ("/product/" ++ slug)]

/-- The open/close effect: when `open` is false, `setQuery('')`,
`setResults({categories: [], products: []})`, `setError('')`.  (When open it
only focuses the input, which does not touch this state.) -/
def openEffect (isOpen : Bool) (s : ComponentState) : ComponentState :=
  if isOpen then s
  else { s with query := "", results := emptyResults, error := "" }

/-- Which sub-views of the result area are rendered. -/
structure ResultAreaView where
  spinner : Bool
  errorMsg : Option String
  categoriesGroup : Option (List CategorySummary)
  productsGroup : Option (List ProductSummary)
  noResults : Option String
  deriving Repr, DecidableEq

/-- The result-area JSX as a pure function of the state.  The whole area is
guarded by `query &&` (JS truthiness of the untrimmed string); inside it:
`loading &&` the spinner, `!loading && error &&` the error text,
`!loading && !error &&` the two groups (each only when non-empty) and the
no-results message (when both are empty and `query` is truthy). -/
def renderResultArea (s : ComponentState) : Option ResultAreaView :=
  if s.query = "" then none
  else some
    { spinner := s.loading
      errorMsg := if s.loading = false ∧ s.error ≠ "" then some s.error else none
      categoriesGroup :=
        if s.loading = false ∧ s.error = "" ∧ 0 < s.results.categories.length
        then some s.results.categories else none
      productsGroup :=
        if s.loading = false ∧ s.error = "" ∧ 0 < s.results.products.length
        then some s.results.products else none
      noResults :=
        if s.loading = false ∧ s.error = "" ∧ s.results.categories.length = 0 ∧
            s.results.products.length = 0 ∧ s.query ≠ ""
        then some ("No results found for \x22" ++ s.query ++ "\x22") else none }

/-! ### Spec-side wire shapes (for the refinement claim C8) -/

/-- The spec's category lookup URL shape: `GET /api/category/search?q={query}`. -/
def specCategorySearchUrl (q : String) : String :=
  "/api/category/search?q=" ++ q

/-- The spec's product lookup URL shape:
`GET /api/product/search?q={query}&limit={limit}`. -/
def specProductSearchUrl (q : String) (limit : Nat) : String :=
  "/api/product/search?q=" ++ q ++ ("&limit=" ++ toString limit)

end SearchDropdown

namespace SearchDropdown

/-! ### Theorems -/

/-- C2: whenever either of the two concurrent lookups fails, the joined
outcome is a rejection, so the catch branch sets `error` to exactly
"Search failed.", the finally branch clears `loading`, and `results` is left
unchanged; moreover `loading` is cleared on every exit of the callback,
success or failure. -/
theorem fetch_failure_handling (s : ComponentState)
    (c : LookupResult CatResponse) (p : LookupResult ProdResponse)
    (h : c = .err ∨ p = .err) :
    (completeFetch s (joinLookups c p)).error = "Search failed." ∧
    (completeFetch s (joinLookups c p)).loading = false ∧
    (completeFetch s (joinLookups c p)).results = s.results ∧
    (∀ o : FetchOutcome, (completeFetch s o).loading = false) := by
  have hj : joinLookups c p = .failure := by
    rcases h with h | h
    · subst h; cases p <;> rfl
    · subst h; cases c <;> rfl
  refine ⟨?_, ?_, ?_, ?_⟩
  · rw [hj]; rfl
  · rw [hj]; rfl
  · rw [hj]; rfl
  · intro o; cases o <;> rfl

/-- C2 witness: category lookup succeeds, product lookup fails. -/
theorem fetch_failure_handling_witness :
    ((LookupResult.err : LookupResult CatResponse) = .err ∨
      (LookupResult.err : LookupResult ProdResponse) = .err) ∧
    (completeFetch
        { query := "a", loading := true,
          results := { categories := [⟨"1", "Shoes", "shoes"⟩], products := [] },
          error := "" }
        (joinLookups (.ok { data := some [] }) .err)).error = "Search failed." ∧
    (completeFetch
        { query := "a", loading := true,
          results := { categories := [⟨"1", "Shoes", "shoes"⟩], products := [] },
          error := "" }
        (joinLookups (.ok { data := some [] }) .err)).results =
      { categories := [⟨"1", "Shoes", "shoes"⟩], products := [] } := by
  refine ⟨Or.inr rfl, ?_, ?_⟩
  · exact (fetch_failure_handling _ (.ok { data := some [] }) .err (Or.inr rfl)).1
  · exact (fetch_failure_handling _ (.ok { data := some [] }) .err (Or.inr rfl)).2.2.1

/-- C3: completions are applied in arrival order with no sequence tagging,
so after any sequence of completions whose last element is a success, the
`results` state is exactly that last-arriving payload — even when it belongs
to an older (earlier-issued) fetch cycle. -/
theorem results_last_completed (s : ComponentState) (os : List FetchOutcome)
    (cats : List CategorySummary) (prods : List ProductSummary)
    (h : os.getLast? = some (.success cats prods)) :
    (applyCompletions s os).results = { categories := cats, products := prods } := by
  induction os generalizing s with
  | nil => simp at h
  | cons o rest ih =>
    cases rest with
    | nil =>
      simp [List.getLast?] at h
      subst h
      simp [applyCompletions, completeFetch]
    | cons o2 rest2 =>
      rw [List.getLast?_cons_cons] at h
      simpa [applyCompletions] using ih (completeFetch s o) h

/-- C3 witness: the newer fetch cycle's response arrives first, the older
(slow) one second; the older payload overwrites the newer one. -/
theorem results_last_completed_witness :
    ([FetchOutcome.success [⟨"2", "New", "new"⟩] [],
      FetchOutcome.success [⟨"1", "Old", "old"⟩] []].getLast? =
        some (.success [⟨"1", "Old", "old"⟩] [])) ∧
    (applyCompletions initialState
        [FetchOutcome.success [⟨"2", "New", "new"⟩] [],
         FetchOutcome.success [⟨"1", "Old", "old"⟩] []]).results =
      { categories := [⟨"1", "Old", "old"⟩], products := [] } :=
  ⟨rfl, results_last_completed initialState _ _ _ rfl⟩

/-- Every pending timer of a dispatcher state captured a query whose trimmed
value is non-empty. -/
def timersOk (d : DispState) : Prop := ∀ p ∈ d.timers, jsTrim p.2 ≠ ""

theorem timersOk_applyMutation (t : Nat) (q : String) (d : DispState)
    (hd : timersOk d) : timersOk (applyMutation t q d) := by
  intro p hp
  by_cases hq : jsTrim q = ""
  · simp [applyMutation, hq, clearCurrent] at hp
    exact hd p ((List.dropLast_sublist d.timers).subset hp)
  · simp [applyMutation, hq, clearCurrent] at hp
    rcases hp with hp | hp
    · exact hd p ((List.dropLast_sublist d.timers).subset
        ((List.dropLast_sublist d.timers.dropLast).subset hp))
    · rw [hp]; exact hq

theorem timersOk_fireDue (t : Nat) (d : DispState) (hd : timersOk d) :
    timersOk (fireDue t d).1 ∧ ∀ f ∈ (fireDue t d).2, jsTrim f.2 ≠ "" := by
  constructor
  · intro p hp
    simp only [fireDue, List.mem_filter] at hp
    exact hd p hp.1
  · intro f hf
    simp only [fireDue, List.mem_filter] at hf
    exact hd f hf.1

theorem runEvents_timersOk (es : List (Nat × String)) :
    ∀ d : DispState, timersOk d →
      timersOk (runEvents d es).1 ∧ ∀ f ∈ (runEvents d es).2, jsTrim f.2 ≠ "" := by
  induction es with
  | nil => exact fun d hd => ⟨hd, by simp [runEvents]⟩
  | cons e rest ih =>
    obtain ⟨t, q⟩ := e
    intro d hd
    have h1 := timersOk_fireDue t d hd
    have h2 := timersOk_applyMutation t q (fireDue t d).1 h1.1
    have h3 := ih (applyMutation t q (fireDue t d).1) h2
    refine ⟨by simpa [runEvents] using h3.1, fun f hf => ?_⟩
    simp only [runEvents, List.mem_append] at hf
    rcases hf with hf | hf
    · exact h1.2 f hf
    · exact h3.2 f hf

/-- Helper for the debounce theorem: while a rapid chain of non-empty
mutations keeps arriving, the single pending timer never fires and is
replaced each time, so no fetch is issued and the final pending timer
belongs to the last mutation. -/
theorem runEvents_rapid (rest : List (Nat × String)) :
    ∀ (d : DispState) (tp : Nat) (qp : String),
      d.timers = [(tp + DELAY, qp)] →
      chainFrom tp rest = true →
      allNonEmptyTrim rest = true →
      (runEvents d rest).2 = [] ∧
      (runEvents d rest).1.timers = [(lastTime tp rest + DELAY, lastQuery qp rest)] := by
  induction rest with
  | nil =>
    intro d tp qp ht _ _
    exact ⟨rfl, by simp [runEvents, lastTime, lastQuery, ht]⟩
  | cons e rest ih =>
    obtain ⟨t, q⟩ := e
    intro d tp qp ht hc hn
    simp only [chainFrom, Bool.and_eq_true, decide_eq_true_eq] at hc
    obtain ⟨⟨h1, h2⟩, hc⟩ := hc
    simp only [allNonEmptyTrim, List.all_cons, Bool.and_eq_true, decide_eq_true_eq] at hn
    obtain ⟨hq, hn⟩ := hn
    have h3 : ¬ (tp + DELAY ≤ t) := by omega
    have hfire : fireDue t d = ({ comp := d.comp, timers := [(tp + DELAY, qp)] }, []) := by
      simp [fireDue, ht, h2, h3]
    have hd2 : (applyMutation t q ({ comp := d.comp, timers := [(tp + DELAY, qp)] }
        : DispState)).timers = [(t + DELAY, q)] := by
      simp [applyMutation, clearCurrent, hq]
    have hih := ih (applyMutation t q ({ comp := d.comp, timers := [(tp + DELAY, qp)] }
        : DispState)) t q hd2 hc hn
    constructor
    · simp only [runEvents, hfire]
      simpa using hih.1
    · simp only [runEvents, hfire, lastTime, lastQuery]
      simpa using hih.2

/-- C1: the dispatcher is a debouncer.  At most one deferred action is ever
pending (each mutation cancels the previous timer before scheduling, and
firing removes the timer); a rapid chain of non-empty query mutations, each
strictly within `DELAY` (350) time units of the previous one, issues no
fetch cycle while typing continues, and a subsequent pause of at least
`DELAY` units issues exactly one fetch cycle, for the final query value
only. -/
theorem debounce_single_fetch (t0 : Nat) (q0 : String) (rest : List (Nat × String))
    (hq0 : jsTrim q0 ≠ "") (hc : chainFrom t0 rest = true)
    (hn : allNonEmptyTrim rest = true) :
    (runEvents initialDisp ((t0, q0) :: rest)).2 = [] ∧
    (flush (runEvents initialDisp ((t0, q0) :: rest)).1).2 =
      [(lastTime t0 rest + DELAY, lastQuery q0 rest)] ∧
    (∀ (d : DispState) (t : Nat) (q : String), d.timers.length ≤ 1 →
      (applyMutation t q d).timers.length ≤ 1 ∧
      (fireDue t d).1.timers.length ≤ 1) := by
  have hfire0 : fireDue t0 initialDisp = (initialDisp, []) := by
    simp [fireDue, initialDisp]
  have hd1 : (applyMutation t0 q0 initialDisp).timers = [(t0 + DELAY, q0)] := by
    simp [applyMutation, initialDisp, clearCurrent, hq0]
  have hih := runEvents_rapid rest (applyMutation t0 q0 initialDisp) t0 q0 hd1 hc hn
  refine ⟨?_, ?_, ?_⟩
  · simp only [runEvents, hfire0]
    simpa using hih.1
  · simp only [flush, runEvents, hfire0]
    simpa using hih.2
  · intro d t q hlen
    have hlen2 : d.timers.dropLast.length ≤ 1 := by
      rw [List.length_dropLast]; omega
    constructor
    · by_cases hq : jsTrim q = ""
      · simpa [applyMutation, hq, clearCurrent] using hlen2
      · have h0 : d.timers.dropLast.dropLast.length = 0 := by
          rw [List.length_dropLast, List.length_dropLast]; omega
        simp [applyMutation, hq, clearCurrent, h0]
    · simp only [fireDue]
      exact le_trans (List.length_filter_le _ _) hlen

/-- C1 witness: mutations "a", "ab", "abc" at times 0, 100, 200 issue no
fetch while typing, and the pause issues exactly one fetch, for "abc". -/
theorem debounce_single_fetch_witness :
    (jsTrim "a" ≠ "" ∧ chainFrom 0 [(100, "ab"), (200, "abc")] = true ∧
      allNonEmptyTrim [(100, "ab"), (200, "abc")] = true) ∧
    (runEvents initialDisp [(0, "a"), (100, "ab"), (200, "abc")]).2 = [] ∧
    (flush (runEvents initialDisp [(0, "a"), (100, "ab"), (200, "abc")]).1).2 =
      [(550, "abc")] :=
  ⟨⟨by decide, by decide, by decide⟩,
   (debounce_single_fetch 0 "a" [(100, "ab"), (200, "abc")]
      (by decide) (by decide) (by decide)).1,
   by
    have h := (debounce_single_fetch 0 "a" [(100, "ab"), (200, "abc")]
      (by decide) (by decide) (by decide)).2.1
    simpa [lastTime, lastQuery, DELAY] using h⟩

/-- C4: a mutation whose trimmed query is empty immediately resets
`results` to `{categories: [], products: []}` and `error` to empty and
schedules nothing (only the cleanup of the previous timer runs); and in any
run of the dispatcher every issued fetch cycle carries a query with
non-empty trimmed value, so an empty query never issues a lookup. -/
theorem empty_query_clears_and_skips (t : Nat) (q : String) (d : DispState)
    (hq : jsTrim q = "") (es : List (Nat × String)) :
    (applyMutation t q d).comp.results = { categories := [], products := [] } ∧
    (applyMutation t q d).comp.error = "" ∧
    (applyMutation t q d).timers = clearCurrent d.timers ∧
    (∀ f ∈ (runEvents initialDisp es).2 ++ (flush (runEvents initialDisp es).1).2,
      jsTrim f.2 ≠ "") := by
  have hrun := runEvents_timersOk es initialDisp (by intro p hp; simp [initialDisp] at hp)
  refine ⟨by simp [applyMutation, hq, emptyResults], by simp [applyMutation, hq],
    by simp [applyMutation, hq], fun f hf => ?_⟩
  rcases List.mem_append.mp hf with hf | hf
  · exact hrun.2 f hf
  · exact hrun.1 f (by simpa [flush] using hf)

/-- C4 witness: the whitespace query "  " at time 0 from the initial state. -/
theorem empty_query_clears_and_skips_witness :
    (jsTrim "  " = "") ∧
    (applyMutation 0 "  " initialDisp).comp.results =
      { categories := [], products := [] } ∧
    (applyMutation 0 "  " initialDisp).comp.error = "" ∧
    (applyMutation 0 "  " initialDisp).timers = clearCurrent initialDisp.timers :=
  ⟨by decide,
   (empty_query_clears_and_skips 0 "  " initialDisp (by decide) []).1,
   (empty_query_clears_and_skips 0 "  " initialDisp (by decide) []).2.1,
   (empty_query_clears_and_skips 0 "  " initialDisp (by decide) []).2.2.1⟩

/-- C5: for every result row selection, the handler emits `onClose()` first
and then the navigation, to `/category/{slug}` for a category row and to
`/product/{slug}` for a product row, unconditionally. -/
theorem result_click_close_then_navigate (slug : String) :
    handleResultClick .category slug =
      [UIEvent.close, UIEvent.navigate ("/category/" ++ slug)] ∧
    handleResultClick .product slug =
      [UIEvent.close, UIEvent.navigate ("/product/" ++ slug)] :=
  ⟨rfl, rfl⟩

/-- C6: rendering precedence of the result area (for a truthy query, not
loading): when `error` is set, only the error message is rendered; otherwise
each group is rendered exactly when non-empty, and when both are empty a
no-results message quoting the literal query text is rendered. -/
theorem render_precedence (s : ComponentState) (v : ResultAreaView)
    (hq : s.query ≠ "") (hl : s.loading = false)
    (hv : renderResultArea s = some v) :
    (s.error ≠ "" →
      v = { spinner := false, errorMsg := some s.error, categoriesGroup := none,
            productsGroup := none, noResults := none }) ∧
    (s.error = "" →
      v.spinner = false ∧ v.errorMsg = none ∧
      v.categoriesGroup =
        (if s.results.categories = [] then none else some s.results.categories) ∧
      v.productsGroup =
        (if s.results.products = [] then none else some s.results.products) ∧
      (s.results.categories = [] → s.results.products = [] →
        v.noResults = some ("No results found for \x22" ++ s.query ++ "\x22")) ∧
      ((s.results.categories ≠ [] ∨ s.results.products ≠ []) →
        v.noResults = none)) := by
  rw [renderResultArea, if_neg hq] at hv
  injection hv with hv
  subst hv
  constructor
  · intro he
    simp [hl, he]
  · intro he
    refine ⟨by simp [hl], by simp [he], ?_, ?_, ?_, ?_⟩
    · by_cases hcats : s.results.categories = []
      · simp [hcats]
      · simp [hl, he, hcats, List.length_pos.mpr hcats]
    · by_cases hprods : s.results.products = []
      · simp [hprods]
      · simp [hl, he, hprods, List.length_pos.mpr hprods]
    · intro hcats hprods
      simp [hl, he, hq, hcats, hprods]
    · intro hne
      rcases hne with hne | hne
      · simp [List.length_eq_zero, hne]
      · simp [List.length_eq_zero, hne]

/-- C6 witness: the query "zzznotfound" with empty results, no error, not
loading: the no-results message quotes the literal query text. -/
theorem render_precedence_witness :
    (({ query := "zzznotfound", loading := false, results := emptyResults,
        error := "" } : ComponentState).query ≠ "" ∧
     ({ query := "zzznotfound", loading := false, results := emptyResults,
        error := "" } : ComponentState).loading = false ∧
     renderResultArea { query := "zzznotfound", loading := false,
                        results := emptyResults, error := "" } =
       some { spinner := false, errorMsg := none, categoriesGroup := none,
              productsGroup := none,
              noResults := some ("No results found for \x22" ++ "zzznotfound"
                ++ "\x22") }) ∧
    ({ spinner := false, errorMsg := none, categoriesGroup := none,
       productsGroup := none,
       noResults := some ("No results found for \x22" ++ "zzznotfound" ++ "\x22")
       : ResultAreaView }).noResults =
      some ("No results found for \x22" ++ "zzznotfound" ++ "\x22") := by
  refine ⟨⟨by decide, rfl, by decide⟩, ?_⟩
  exact ((render_precedence
    { query := "zzznotfound", loading := false, results := emptyResults,
      error := "" }
    { spinner := false, errorMsg := none, categoriesGroup := none,
      productsGroup := none,
      noResults := some ("No results found for \x22" ++ "zzznotfound" ++ "\x22") }
    (by decide) rfl (by decide)).2 rfl).2.2.2.2.1 rfl rfl

/-- C9: for a query that is non-empty as a raw string but whitespace-only
(empty after trimming), the dispatcher schedules nothing and clears the
results, yet the presenter's `query &&` guard checks the untrimmed string,
so the result area renders the no-results message quoting the whitespace
query. -/
theorem whitespace_query_renders_noresults (d : DispState) (t : Nat) (q : String)
    (hq : q ≠ "") (ht : jsTrim q = "") (hl : d.comp.loading = false) :
    (applyMutation t q d).timers = clearCurrent d.timers ∧
    renderResultArea (applyMutation t q d).comp =
      some { spinner := false, errorMsg := none, categoriesGroup := none,
             productsGroup := none,
             noResults := some ("No results found for \x22" ++ q ++ "\x22") } := by
  refine ⟨by simp [applyMutation, ht], ?_⟩
  simp [applyMutation, ht, renderResultArea, hq, hl, emptyResults]

/-- C9 witness: the single-space query " " from the initial state. -/
theorem whitespace_query_renders_noresults_witness :
    ((" " : String) ≠ "" ∧ jsTrim " " = "" ∧ initialDisp.comp.loading = false) ∧
    (applyMutation 0 " " initialDisp).timers = clearCurrent initialDisp.timers ∧
    renderResultArea (applyMutation 0 " " initialDisp).comp =
      some { spinner := false, errorMsg := none, categoriesGroup := none,
             productsGroup := none,
             noResults := some ("No results found for \x22" ++ " " ++ "\x22") } :=
  ⟨⟨by decide, by decide, rfl⟩,
   (whitespace_query_renders_noresults initialDisp 0 " "
      (by decide) (by decide) rfl).1,
   (whitespace_query_renders_noresults initialDisp 0 " "
      (by decide) (by decide) rfl).2⟩

/-- C10: `loading` is only ever cleared by the fetch callback's finally
block.  A non-empty query mutation sets `loading` and arms the timer; if the
query is cleared again before the timer fires, the timer is cancelled, no
fetch is issued, the empty-query branch resets results and error but not
`loading` — which stays true with nothing pending — and the overlay-close
reset does not touch `loading` either. -/
theorem loading_stuck_on_cleared_query (t t2 : Nat) (q : String)
    (hq : jsTrim q ≠ "") (h2 : t2 < t + DELAY) :
    (runEvents initialDisp [(t, q), (t2, "")]).2 = [] ∧
    (runEvents initialDisp [(t, q), (t2, "")]).1.timers = [] ∧
    (runEvents initialDisp [(t, q), (t2, "")]).1.comp.loading = true ∧
    (∀ s : ComponentState, (openEffect false s).loading = s.loading) := by
  have h3 : ¬ (t + DELAY ≤ t2) := by omega
  have hq0 : jsTrim "" = "" := by decide
  have e1 : fireDue t initialDisp = (initialDisp, []) := by
    simp [fireDue, initialDisp]
  have e2 : applyMutation t q initialDisp =
      ({ comp := { query := q, loading := true, results := emptyResults,
                   error := "" },
         timers := [(t + DELAY, q)] } : DispState) := by
    simp [applyMutation, initialDisp, initialState, clearCurrent, hq]
  have e3 : fireDue t2
      ({ comp := { query := q, loading := true, results := emptyResults,
                   error := "" },
         timers := [(t + DELAY, q)] } : DispState) =
      (({ comp := { query := q, loading := true, results := emptyResults,
                    error := "" },
          timers := [(t + DELAY, q)] } : DispState), []) := by
    simp [fireDue, h2, h3]
  have e4 : applyMutation t2 ""
      ({ comp := { query := q, loading := true, results := emptyResults,
                   error := "" },
         timers := [(t + DELAY, q)] } : DispState) =
      ({ comp := { query := "", loading := true, results := emptyResults,
                   error := "" },
         timers := [] } : DispState) := by
    simp [applyMutation, clearCurrent, hq0]
  have key : runEvents initialDisp [(t, q), (t2, "")] =
      (({ comp := { query := "", loading := true, results := emptyResults,
                    error := "" },
          timers := [] } : DispState), []) := by
    simp [runEvents, e1, e2, e3, e4]
  exact ⟨by rw [key], by rw [key], by rw [key], fun s => rfl⟩

/-- C10 witness: query "a" at time 0, cleared at time 100 (before the timer
would fire at 350): no fetch, no pending timer, `loading` still true. -/
theorem loading_stuck_on_cleared_query_witness :
    (jsTrim "a" ≠ "" ∧ 100 < 0 + DELAY) ∧
    (runEvents initialDisp [(0, "a"), (100, "")]).2 = [] ∧
    (runEvents initialDisp [(0, "a"), (100, "")]).1.timers = [] ∧
    (runEvents initialDisp [(0, "a"), (100, "")]).1.comp.loading = true :=
  ⟨⟨by decide, by decide⟩,
   (loading_stuck_on_cleared_query 0 100 "a" (by decide) (by decide)).1,
   (loading_stuck_on_cleared_query 0 100 "a" (by decide) (by decide)).2.1,
   (loading_stuck_on_cleared_query 0 100 "a" (by decide) (by decide)).2.2.1⟩

/-- C7: when the overlay closes, `query` is reset to the empty string,
`results` to `{categories: [], products: []}` and `error` to the empty
string. -/
theorem close_resets_state (s : ComponentState) :
    (openEffect false s).query = "" ∧
    (openEffect false s).results = { categories := [], products := [] } ∧
    (openEffect false s).error = "" :=
  ⟨rfl, rfl, rfl⟩

/-- C8: one fetch cycle issues exactly the two GETs of the spec's wire
shape — the category search with the encoded query and the product search
with the encoded query and `limit` fixed at `10` — and reads the response
bodies as `{ data: CategorySummary[] }` and
`{ data: { products: ProductSummary[] } }`. -/
theorem fetch_cycle_wire_shape (q : String) (cr : CatResponse) (pr : ProdResponse) :
    fetchCycleRequests q =
      [specCategorySearchUrl (encodeURIComponent q),
       specProductSearchUrl (encodeURIComponent q) 10] ∧
    joinLookups (.ok cr) (.ok pr) =
      .success (cr.data.getD []) ((pr.data.map ProdResponseData.products).getD []) := by
  constructor
  · have h10 : ("&limit=" ++ toString 10 : String) = "&limit=10" := by decide
    simp [fetchCycleRequests, specCategorySearchUrl, specProductSearchUrl, h10]
  · rfl

end SearchDropdown
